import Mathlib

/-!
Verification of the HTTP prober in `src/main.py`.

The program repeatedly issues GET requests to a configured target, classifies
each outcome via an `except` chain, and updates Prometheus counters and a
latency histogram.  This file gives a shallow embedding of the program:

* YAML/Python values are modelled by the inductive `Value` (dicts are
  association lists preserving insertion order, numbers are rationals).
* Python exceptions that the program can see are modelled by `PyExc`; the
  `requests` exception hierarchy (`requests/exceptions.py`) is modelled by
  `ReqExc` together with `isinstance` predicates.  Only subclasses of
  `Exception` are modelled: `BaseException`-only exceptions such as
  `KeyboardInterrupt` are delivered to the main thread only, never raised
  inside the worker threads that run `http_request`.
* Fallible Python code becomes `Except PyExc _`; external library calls
  (`requests.get`, the yaml parse, the histogram `observe`) are modelled by
  parameters describing their outcome.
-/

/-- A Python/YAML value: `None`, booleans, numbers (ints and finite floats
are both modelled as rationals), the non-finite IEEE floats `nan`, `inf`
and `-inf` (PyYAML resolves `.nan`, `.inf` and `-.inf` to them, and Python's
`float()` produces them from the corresponding strings), strings, lists,
and insertion-ordered dicts with string keys (the only dict keys the
program's configs use). -/
inductive Value where
  | vnull
  | vbool (b : Bool)
  | vnum (q : ℚ)
  | vnan
  | vinf
  | vninf
  | vstr (s : String)
  | vlist (xs : List Value)
  | vdict (entries : List (String × Value))

/-- Modelled Python exceptions visible to `src/main.py`. -/
inductive ReqExc where
  | httpError          -- requests.exceptions.HTTPError(RequestException)
  | connectionError    -- requests.exceptions.ConnectionError(RequestException)
  | proxyError         -- requests.exceptions.ProxyError(ConnectionError)
  | sslError           -- requests.exceptions.SSLError(ConnectionError)
  | timeoutPlain       -- requests.exceptions.Timeout(RequestException)
  | connectTimeout     -- requests.exceptions.ConnectTimeout(ConnectionError, Timeout)
  | readTimeout        -- requests.exceptions.ReadTimeout(Timeout)
  | tooManyRedirects   -- requests.exceptions.TooManyRedirects(RequestException)
  | urlRequired        -- requests.exceptions.URLRequired(RequestException)
  | requestException   -- requests.exceptions.RequestException(IOError) itself
deriving DecidableEq, Repr

/-- An `Exception` instance as seen by the program: a `requests` exception,
one of the builtin / library exception classes the program interacts with,
or any other `Exception` subclass. -/
inductive PyExc where
  | reqExc (e : ReqExc)
  | ioError            -- builtin IOError / OSError
  | yamlError          -- yaml.YAMLError (raised by yaml.load on bad input)
  | argumentTypeError  -- argparse.ArgumentTypeError (raised by the check_* helpers)
  | valueError         -- builtin ValueError
  | typeError          -- builtin TypeError
  | keyError           -- builtin KeyError
  | zeroDivisionError  -- builtin ZeroDivisionError
  | overflowError      -- builtin OverflowError (int() of an infinite float)
  | otherExc           -- any other Exception subclass
deriving DecidableEq, Repr

/-- `isinstance(e, requests.exceptions.HTTPError)`. -/
def isHTTPError : PyExc → Bool
  | .reqExc .httpError => true
  | _ => false

/-- `isinstance(e, requests.exceptions.ConnectionError)`:
`ConnectionError` itself, `ProxyError`, `SSLError` and `ConnectTimeout`. -/
def isConnectionError : PyExc → Bool
  | .reqExc .connectionError => true
  | .reqExc .proxyError => true
  | .reqExc .sslError => true
  | .reqExc .connectTimeout => true
  | _ => false

/-- `isinstance(e, requests.exceptions.Timeout)`:
`Timeout` itself, `ConnectTimeout` and `ReadTimeout`. -/
def isTimeout : PyExc → Bool
  | .reqExc .timeoutPlain => true
  | .reqExc .connectTimeout => true
  | .reqExc .readTimeout => true
  | _ => false

/-- `isinstance(e, requests.exceptions.TooManyRedirects)`. -/
def isTooManyRedirects : PyExc → Bool
  | .reqExc .tooManyRedirects => true
  | _ => false

/-- `isinstance(e, requests.exceptions.RequestException)`: every class in the
`requests` hierarchy, nothing else. -/
def isRequestException : PyExc → Bool
  | .reqExc _ => true
  | _ => false

/-- `isinstance(e, IOError)`: the builtin IOError/OSError, and every
`requests.exceptions.RequestException` (which subclasses IOError). -/
def isIOError : PyExc → Bool
  | .ioError => true
  | .reqExc _ => true
  | _ => false

/-- `isinstance(e, Exception)`: every modelled exception derives `Exception`. -/
def isException : PyExc → Bool := fun _ => true

/-! ## Association-list primitives (Python dict semantics) -/

/-- Lookup in an insertion-ordered association list (Python `d[k]` / `k in d`). -/
def alookup {K A : Type} [DecidableEq K] : List (K × A) → K → Option A
  | [], _ => none
  | (k', a) :: t, k => if k' = k then some a else alookup t k

/-- Python dict assignment `d[k] = v`: replace in place, else append. -/
def setKey {K A : Type} [DecidableEq K] : List (K × A) → K → A → List (K × A)
  | [], k, a => [(k, a)]
  | (k', a') :: t, k, a => if k' = k then (k, a) :: t else (k', a') :: setKey t k a

/-- Python substring test `needle in hay` for strings. -/
def strContainsSub (hay needle : String) : Bool :=
  (List.range (hay.length + 1)).any fun i => needle.data.isPrefixOf (hay.data.drop i)

/-- Python membership `k in v` for a string key `k`.  On a dict it is a key
test, on a string a substring test, on a list an element test (a string key
compares equal only to equal strings), and on other values it raises
`TypeError`. -/
def pyIn (k : String) : Value → Except PyExc Bool
  | .vdict es => .ok (alookup es k).isSome
  | .vstr s => .ok (strContainsSub s k)
  | .vlist xs => .ok (xs.any fun x => match x with | .vstr s => s == k | _ => false)
  | _ => .error .typeError

/-- Python subscription `v[k]` with a string key: dict lookup (raising
`KeyError` when absent); strings and other values raise `TypeError`. -/
def pyGetItem (v : Value) (k : String) : Except PyExc Value :=
  match v with
  | .vdict es =>
    match alookup es k with
    | some x => .ok x
    | none => .error .keyError
  | _ => .error .typeError

/-- Python subscript assignment `v[k] = x`: only dicts support it. -/
def pySetItem (v : Value) (k : String) (x : Value) : Except PyExc Value :=
  match v with
  | .vdict es => .ok (.vdict (setKey es k x))
  | _ => .error .typeError

/-! ## Python numeric conversions -/

/-- Truncation toward zero, as Python `int(float)` does. -/
def ratTrunc (q : ℚ) : ℤ := q.num.tdiv q.den

/-- Python `int(x)`: finite numbers truncate toward zero, booleans become
0/1, strings parse as decimal integers (unparseable strings raise
`ValueError`); `int(float('nan'))` raises `ValueError` and
`int(float('inf'))` raises `OverflowError`; `None`, lists and dicts raise
`TypeError`. -/
def pyInt : Value → Except PyExc ℤ
  | .vnum q => .ok (ratTrunc q)
  | .vnan => .error .valueError
  | .vinf => .error .overflowError
  | .vninf => .error .overflowError
  | .vbool b => .ok (if b then 1 else 0)
  | .vstr s =>
    match s.toInt? with
    | some n => .ok n
    | none => .error .valueError
  | _ => .error .typeError

/-- Parse a plain decimal literal (optional sign, digits, optional fraction)
as Python `float(str)` does on such literals; anything else is rejected
(Python's further forms -- exponents, inf/nan, underscores -- are outside the
model and never produced by the configs the claims mention). -/
def parseDecimal (s : String) : Option ℚ :=
  let core : String → Option ℚ := fun t =>
    match t.split (fun c => c = '.') with
    | [a] => (a.toNat?).map (fun n => (n : ℚ))
    | [a, b] =>
      match a.toNat?, b.toNat? with
      | some n, some m => some ((n : ℚ) + (m : ℚ) / ((10 : ℚ) ^ b.length))
      | _, _ => none
    | _ => none
  if s.startsWith "-" then (core (s.drop 1)).map Neg.neg else core s

/-- Python `float(x)`: the result is always a float `Value` (a `vnum`,
`vnan`, `vinf` or `vninf`).  Numbers -- the non-finite floats included --
pass through, booleans become 0/1, strings parse as decimals or as the
case-insensitive forms nan/inf/infinity with optional sign (else
`ValueError`); `None`, lists and dicts raise `TypeError`. -/
def pyFloat : Value → Except PyExc Value
  | .vnum q => .ok (.vnum q)
  | .vnan => .ok .vnan
  | .vinf => .ok .vinf
  | .vninf => .ok .vninf
  | .vbool b => .ok (.vnum (if b then 1 else 0))
  | .vstr s =>
    let t := s.toLower
    if t = "nan" ∨ t = "+nan" ∨ t = "-nan" then .ok .vnan
    else if t = "inf" ∨ t = "+inf" ∨ t = "infinity" ∨ t = "+infinity" then .ok .vinf
    else if t = "-inf" ∨ t = "-infinity" then .ok .vninf
    else
      match parseDecimal s with
      | some q => .ok (.vnum q)
      | none => .error .valueError
  | _ => .error .typeError

/-- The source's IEEE comparison `x <= 0` on a float value (the result of
`float(...)`): `nan <= 0` and `inf <= 0` are False, `-inf <= 0` is True.
Non-float values never reach this comparison (`pyFloat` yields only float
values). -/
def floatLeZero : Value → Bool
  | .vnum q => decide (q ≤ 0)
  | .vninf => true
  | _ => false

/-- The IEEE comparison `x > 0` on a float value: `nan > 0` is False,
`inf > 0` is True. -/
def floatGtZero : Value → Bool
  | .vnum q => decide (0 < q)
  | .vinf => true
  | _ => false

/-- Python `str(x)` as used by the f-string composing the URL: strings pass
through, integral numbers print their integer part, booleans print
True/False.  Rendering of non-integral numbers and containers is abstracted
(no claim depends on it). -/
def pyStr : Value → String
  | .vstr s => s
  | .vnum q => if q.den = 1 then toString q.num else toString q
  | .vnan => "nan"
  | .vinf => "inf"
  | .vninf => "-inf"
  | .vbool b => if b then "True" else "False"
  | .vnull => "None"
  | .vlist _ => "list"
  | .vdict _ => "dict"

/-- Python `1 / x` (line 192): true division of 1 by a number, yielding a
float value.  `1/nan` is `nan`; dividing 1 by either infinity gives zero
(the sign of IEEE zero is abstracted away); `True`/`False` behave as 1/0,
zero raises `ZeroDivisionError`, non-numbers raise `TypeError`. -/
def pyDivOneBy : Value → Except PyExc Value
  | .vnum q => if q = 0 then .error .zeroDivisionError else .ok (.vnum (1 / q))
  | .vnan => .ok .vnan
  | .vinf => .ok (.vnum 0)
  | .vninf => .ok (.vnum 0)
  | .vbool b => if b then .ok (.vnum 1) else .error .zeroDivisionError
  | _ => .error .typeError

/-! ## The check_* validators (src/main.py lines 15-72) -/

/-- `check_port` (lines 15-34): `int(port)` then range-check 1..65535.  The
`except ValueError` clause converts only `ValueError` into
`argparse.ArgumentTypeError`; the deliberate `ArgumentTypeError` raises and
any `TypeError` from `int()` propagate unchanged. -/
def check_port (port : Value) : Except PyExc ℤ :=
  match pyInt port with
  | .error e => if e = .valueError then .error .argumentTypeError else .error e
  | .ok p =>
    if p < 1 then .error .argumentTypeError
    else if p > 65535 then .error .argumentTypeError
    else .ok p

/-- `check_frequency` (lines 37-53): `float(frequency)` then the test
`if frequency <= 0: raise`.  The comparison is the float's IEEE one: `nan`
and `inf` make it False, so they pass the check and are returned. -/
def check_frequency (frequency : Value) : Except PyExc Value :=
  match pyFloat frequency with
  | .error e => if e = .valueError then .error .argumentTypeError else .error e
  | .ok f => if floatLeZero f then .error .argumentTypeError else .ok f

/-- `check_timeout` (lines 56-72): `float(timeout)` then the test
`if timeout <= 0: raise`, with the same IEEE comparison as
`check_frequency`. -/
def check_timeout (timeout : Value) : Except PyExc Value :=
  match pyFloat timeout with
  | .error e => if e = .valueError then .error .argumentTypeError else .error e
  | .ok t => if floatLeZero t then .error .argumentTypeError else .ok t

/-! ## verify_config (src/main.py lines 127-152) -/

/-- `check_port(target['port'])` wrapped back into a `Value`, as the
assignments on lines 133 and 146 store it. -/
def checkPortValue (v : Value) : Except PyExc Value :=
  match check_port v with
  | .error e => .error e
  | .ok p => .ok (.vnum (p : ℚ))

/-- `check_frequency(target['frequency'])` stored back on line 149: the
returned float value is stored as-is. -/
def checkFrequencyValue (v : Value) : Except PyExc Value :=
  check_frequency v

/-- `check_timeout(target['timeout'])` stored back on line 150: the
returned float value is stored as-is. -/
def checkTimeoutValue (v : Value) : Except PyExc Value :=
  check_timeout v

/-- One defaulted assignment of the form
`target[k] = dflt if k not in target else chk(target[k])`
(lines 146, 149, 150): evaluate the membership test, then either the default
or the checked existing value, then assign. -/
def setCheckedStep (t : Value) (k : String) (dflt : Value)
    (chk : Value → Except PyExc Value) : Except PyExc Value :=
  match pyIn k t with
  | .error e => .error e
  | .ok false => pySetItem t k dflt
  | .ok true =>
    match pyGetItem t k with
    | .error e => .error e
    | .ok v =>
      match chk v with
      | .error e => .error e
      | .ok w => pySetItem t k w

/-- One defaulted assignment of the form
`target[k] = dflt if k not in target else target[k]` (lines 147, 148, 151). -/
def setPlainStep (t : Value) (k : String) (dflt : Value) : Except PyExc Value :=
  match pyIn k t with
  | .error e => .error e
  | .ok false => pySetItem t k dflt
  | .ok true =>
    match pyGetItem t k with
    | .error e => .error e
    | .ok v => pySetItem t k v

/-- Lines 131-135: validate/default the `server` block.  The condition
`'server' in configuration and 'port' in configuration['server']` is
short-circuiting; when it fails the whole `server` entry is replaced by
`{'port': 8000}`. -/
def verifyServer (configuration : Value) : Except PyExc Value :=
  match pyIn "server" configuration with
  | .error e => .error e
  | .ok hasServer =>
    let cond : Except PyExc Bool :=
      if hasServer then
        match pyGetItem configuration "server" with
        | .error e => .error e
        | .ok server => pyIn "port" server
      else .ok false
    match cond with
    | .error e => .error e
    | .ok false => pySetItem configuration "server" (.vdict [("port", .vnum 8000)])
    | .ok true =>
      match pyGetItem configuration "server" with
      | .error e => .error e
      | .ok server =>
        match pyGetItem server "port" with
        | .error e => .error e
        | .ok p =>
          match checkPortValue p with
          | .error e => .error e
          | .ok p' =>
            match pySetItem server "port" p' with
            | .error e => .error e
            | .ok server' => pySetItem configuration "server" server'

/-- Lines 141-152: validate/default the `target` block.  `target` is an
alias into the configuration dict; the model returns the updated block for
the caller to write back.  Returns `(false, _)` when `address` is missing,
`(true, updated)` after the six defaulted assignments succeed. -/
def verifyTarget (target : Value) : Except PyExc (Bool × Value) :=
  match pyIn "address" target with
  | .error e => .error e
  | .ok false => .ok (false, target)
  | .ok true =>
    match setCheckedStep target "port" (.vnum 80) checkPortValue with
    | .error e => .error e
    | .ok t1 =>
      match setPlainStep t1 "pathname" (.vstr "/") with
      | .error e => .error e
      | .ok t2 =>
        match setPlainStep t2 "protocol" (.vstr "http") with
        | .error e => .error e
        | .ok t3 =>
          match setCheckedStep t3 "frequency" (.vnum 1) checkFrequencyValue with
          | .error e => .error e
          | .ok t4 =>
            match setCheckedStep t4 "timeout" (.vnum 1) checkTimeoutValue with
            | .error e => .error e
            | .ok t5 =>
              match setPlainStep t5 "verify_ssl" (.vbool true) with
              | .error e => .error e
              | .ok t6 => .ok (true, t6)

/-- `verify_config` (lines 127-152).  Non-dicts yield `False`; then the
`server` block is defaulted/checked, then the `target` block; the result is
the returned boolean together with the (mutated) configuration dict. -/
def verify_config (configuration : Value) : Except PyExc (Bool × Value) :=
  match configuration with
  | .vdict _ =>
    match verifyServer configuration with
    | .error e => .error e
    | .ok cfg1 =>
      match pyIn "target" cfg1 with
      | .error e => .error e
      | .ok false => .ok (false, cfg1)
      | .ok true =>
        match pyGetItem cfg1 "target" with
        | .error e => .error e
        | .ok target =>
          match verifyTarget target with
          | .error e => .error e
          | .ok (false, _) => .ok (false, cfg1)
          | .ok (true, target') =>
            match pySetItem cfg1 "target" target' with
            | .error e => .error e
            | .ok cfg2 => .ok (true, cfg2)
  | _ => .ok (false, configuration)

/-! ## load_configuration / reload (src/main.py lines 101-124, 195-199) -/

/-- Outcome of `open(pathname)` + `yaml.load`: the open/read can raise
`IOError`, the parse can raise `yaml.YAMLError`, or a document is produced. -/
inductive FileRead where
  | ioError
  | parsed (r : Except Unit Value)

/-- `load_configuration` (lines 101-116).  `g` is the current global
`config`; the result pairs the returned boolean with the new global.  The
`try` block spans read, parse, verification and the global assignment, but
`except IOError` catches only `IOError` (and its subclasses): a
`yaml.YAMLError` or any exception raised by `verify_config` propagates to
the caller. -/
def load_configuration (fr : FileRead) (g : Value) : Except PyExc (Bool × Value) :=
  let body : Except PyExc (Bool × Value) :=
    match fr with
    | .ioError => .error .ioError
    | .parsed (.error _) => .error .yamlError
    | .parsed (.ok v) =>
      match verify_config v with
      | .error e => .error e
      | .ok (true, v') => .ok (true, v')
      | .ok (false, _) => .ok (false, g)
  match body with
  | .ok r => .ok r
  | .error e => if isIOError e then .ok (false, g) else .error e

/-- `reload_configuration` (lines 119-124), the SIGHUP handler: it calls
`load_configuration` and prints; it catches nothing itself, so an exception
raised by `load_configuration` escapes the signal handler into the
interrupted main thread. -/
def reload_configuration (fr : FileRead) (g : Value) : Except PyExc Value :=
  match load_configuration fr g with
  | .ok (_, g') => .ok g'
  | .error e => .error e

/-- Startup (`__main__`, lines 195-199) beginning from the empty global
`config = dict()` of line 83: `some c` means the process exits with status
`c` before probing starts (`sys.exit(-1)` on a `False` load; an uncaught
exception makes the interpreter exit with status 1); `none` means startup
proceeds to the scheduler loop. -/
def startupExitCode (fr : FileRead) : Option ℤ :=
  match load_configuration fr (.vdict []) with
  | .ok (false, _) => some (-1)
  | .ok (true, _) => none
  | .error _ => some 1

/-! ## Metric state (src/main.py lines 85-98) -/

/-- The kind of a Prometheus metric family. -/
inductive MetricKind where
  | counter
  | histogram
  | gauge
deriving DecidableEq, Repr

/-- `APP_METRIC_PREFIX` (line 86). -/
def APP_METRIC_STEM : String := "http_probe"

/-- The metric families the program registers at import time (lines 87-98):
two counters and one histogram -- and nothing else; in particular no gauge
family is ever created. -/
def registryFamilies : List (String × MetricKind) :=
  [ (APP_METRIC_STEM ++ "_http_requests_completed", .counter),
    (APP_METRIC_STEM ++ "_http_requests_errors", .counter),
    (APP_METRIC_STEM ++ "_latency_seconds", .histogram) ]

/-- `Counter.labels(...).inc()` on an association list of label-tuple
children: `labels` creates the child on first use (prometheus_client creates
children lazily), `inc` adds one. -/
def bump {K : Type} [DecidableEq K] : List (K × ℕ) → K → List (K × ℕ)
  | [], k => [(k, 1)]
  | (k', n) :: t, k => if k' = k then (k', n + 1) :: t else (k', n) :: bump t k

/-- `Histogram.labels(...).observe(x)`: create the child lazily and append
the observation. -/
def appendObs {K : Type} [DecidableEq K] : List (K × List ℚ) → K → ℚ → List (K × List ℚ)
  | [], k, x => [(k, [x])]
  | (k', xs) :: t, k, x => if k' = k then (k', xs ++ [x]) :: t else (k', xs) :: appendObs t k x

/-- Sum of all child counters of one family. -/
def countSum {K : Type} (l : List (K × ℕ)) : ℕ := (l.map Prod.snd).sum

/-- The children of the three metric families of lines 87-98:
`http_requests_completed` keyed by (method, target, code),
`http_requests_errors` keyed by (method, target, type), and the latency
histogram keyed by (method, target). -/
structure MetricState where
  completed : List ((String × String × ℕ) × ℕ)
  errors : List ((String × String × String) × ℕ)
  histogram : List ((String × String) × List ℚ)

/-- Metric state at process start: the families exist, but no label
combination has been touched, so every family has no children. -/
def initMetrics : MetricState := ⟨[], [], []⟩

/-- `http_requests_completed.labels(method='GET', target=endpoint, code=code).inc()` (line 161). -/
def recordCompleted (s : MetricState) (endpoint : String) (code : ℕ) : MetricState :=
  { s with completed := bump s.completed ("GET", endpoint, code) }

/-- `http_requests_errors.labels(method='GET', target=endpoint, type=k).inc()` (lines 166-176). -/
def recordError (s : MetricState) (endpoint : String) (k : String) : MetricState :=
  { s with errors := bump s.errors ("GET", endpoint, k) }

/-- `latency_histogram.labels(method='GET', target=endpoint).observe(x)` (line 164). -/
def recordObservation (s : MetricState) (endpoint : String) (x : ℚ) : MetricState :=
  { s with histogram := appendObs s.histogram ("GET", endpoint) x }

/-- Total of the completion counter over all label combinations. -/
def completedTotal (s : MetricState) : ℕ := countSum s.completed

/-- Total of the error counter over all label combinations. -/
def errorTotal (s : MetricState) : ℕ := countSum s.errors

/-! ## http_request (src/main.py lines 155-176) -/

/-- The outcome of the `requests.get` call on line 159: either a response
was received (any HTTP status code), or the call raised an exception. -/
inductive GetResult where
  | response (status : ℕ)
  | raises (e : PyExc)

/-- The label the `except` chain of lines 165-176 assigns to an exception:
the clauses are tried in source order, first `isinstance` match wins, and
the final `except Exception` yields `unknown`. -/
def classify (e : PyExc) : String :=
  if isHTTPError e then "http"
  else if isConnectionError e then "connection"
  else if isTooManyRedirects e then "redirects"
  else if isTimeout e then "timeout"
  else if isRequestException e then "request"
  else "unknown"

/-- The closed label set of the error taxonomy. -/
def errorKinds : List String :=
  ["http", "connection", "redirects", "timeout", "request", "unknown"]

/-- The `except` chain of lines 165-176 applied to a raised exception `e`
with metric state `s` at the moment of the raise: each clause tests its
class in source order and increments the corresponding error counter; an
exception matching no clause would propagate (`.error e`), but the final
`except Exception` clause matches every modelled exception. -/
def exceptChain (endpoint : String) (e : PyExc) (s : MetricState) : Except PyExc MetricState :=
  if isHTTPError e then .ok (recordError s endpoint "http")
  else if isConnectionError e then .ok (recordError s endpoint "connection")
  else if isTooManyRedirects e then .ok (recordError s endpoint "redirects")
  else if isTimeout e then .ok (recordError s endpoint "timeout")
  else if isRequestException e then .ok (recordError s endpoint "request")
  else if isException e then .ok (recordError s endpoint "unknown")
  else .error e

/-- `http_request` (lines 155-176).  `get` is the outcome of the
`requests.get` call; `elapsed` is the measured `time.time() - now`;
`observeExc` models whether the latency bookkeeping of lines 163-164 (an
external prometheus_client call) itself raises -- `none` means it completes
normally.  On a response the completion counter is incremented first; any
exception raised inside the `try` block (by the GET or by the bookkeeping,
after the increments already performed) is dispatched to the `except`
chain. -/
def http_request (endpoint : String) (get : GetResult) (elapsed : ℚ)
    (observeExc : Option PyExc) (s : MetricState) : Except PyExc MetricState :=
  match get with
  | .raises e => exceptChain endpoint e s
  | .response code =>
    let s1 := recordCompleted s endpoint code
    match observeExc with
    | some e => exceptChain endpoint e s1
    | none => .ok (recordObservation s1 endpoint elapsed)

/-! ## The scheduler loop (src/main.py lines 179-192) -/

/-- `config['target'][k]`: one read of the target block of the snapshot
`cfg` current at that moment. -/
def readTargetField (cfg : Value) (k : String) : Except PyExc Value :=
  match pyGetItem cfg "target" with
  | .error e => .error e
  | .ok t => pyGetItem t k

/-- The f-string of line 184. -/
def composeEndpoint (protocol address port pathname : Value) : String :=
  pyStr protocol ++ "://" ++ pyStr address ++ ":" ++ pyStr port ++ pyStr pathname

/-- Lines 182-184 at bytecode granularity: the four fields are read from the
global `config` in the order protocol, address, port, pathname, and a SIGHUP
reload may swap the global between any two reads; `c1 .. c4` are the
snapshots current at each of the four reads. -/
def composeWithSnapshots (c1 c2 c3 c4 : Value) : Except PyExc String :=
  match readTargetField c1 "protocol" with
  | .error e => .error e
  | .ok p =>
    match readTargetField c2 "address" with
    | .error e => .error e
    | .ok a =>
      match readTargetField c3 "port" with
      | .error e => .error e
      | .ok po =>
        match readTargetField c4 "pathname" with
        | .error e => .error e
        | .ok pa => .ok (composeEndpoint p a po pa)

/-- Lines 182-184 when no reload occurs during composition: all four reads
see the same snapshot. -/
def composeCycle (cfg : Value) : Except PyExc String :=
  composeWithSnapshots cfg cfg cfg cfg

/-- The observable effect of one scheduler cycle (lines 180-192): the URL
composed, the timeout and verify_ssl values handed to the spawned thread,
and the duration of the `time.sleep(1 / config['target']['frequency'])`. -/
structure CycleEffect where
  endpoint : String
  timeout : Value
  verify_ssl : Value
  sleepSeconds : Value

/-- One iteration of `main`'s `while True` loop against a fixed snapshot
`cfg`.  `requestLatency` is the eventual duration of the probe dispatched
this cycle; the loop starts its thread (line 189) and never joins it, so no
part of the cycle reads it. -/
def mainCycle (cfg : Value) (requestLatency : ℚ) : Except PyExc CycleEffect :=
  match composeCycle cfg with
  | .error e => .error e
  | .ok url =>
    match readTargetField cfg "timeout" with
    | .error e => .error e
    | .ok tm =>
      match readTargetField cfg "verify_ssl" with
      | .error e => .error e
      | .ok vs =>
        match readTargetField cfg "frequency" with
        | .error e => .error e
        | .ok fv =>
          match pyDivOneBy fv with
          | .error e => .error e
          | .ok slp => .ok ⟨url, tm, vs, slp⟩

/-- Scheduler state across cycles: how many ticks have fired and how many
probe attempts are currently in flight. -/
structure SchedState where
  ticks : ℕ
  inflight : ℕ
deriving DecidableEq, Repr

/-- One tick of the loop: `thread.start()` on line 189 unconditionally
spawns exactly one new probe attempt; `completions` is how many in-flight
attempts the environment happens to finish during this cycle. -/
def schedStep (s : SchedState) (completions : ℕ) : SchedState :=
  { ticks := s.ticks + 1, inflight := s.inflight + 1 - min completions (s.inflight + 1) }

/-- Run the loop from process start under an environment-chosen completion
schedule, one entry per tick. -/
def schedRun (cs : List ℕ) : SchedState := cs.foldl schedStep ⟨0, 0⟩

/-- The postcondition of a successful `verify_config` that the scheduler
relies on: the `target` entry exists and contains all seven fields, the port
is an integer in [1, 65535], the frequency is a positive number for which
`1 / frequency` is defined and positive, and the timeout is positive. -/
def requiredTargetKeys : List String :=
  ["address", "port", "pathname", "protocol", "frequency", "timeout", "verify_ssl"]

/-- See `requiredTargetKeys`: what actually holds of the stored
configuration after `verify_config` returns `True`.  The frequency and
timeout are float values on which the program's IEEE `<= 0` test is false;
when such a value is a finite number it is strictly positive and
`1 / frequency` is a well-defined positive number -- but the non-finite
floats `nan` and `inf` also pass the test, so no stronger guarantee is
available. -/
def validatedTargetPost (v' : Value) : Prop :=
  ∃ t, pyGetItem v' "target" = .ok t ∧
    (∀ k ∈ requiredTargetKeys, ∃ x, pyGetItem t k = .ok x) ∧
    (∃ p : ℤ, pyGetItem t "port" = .ok (.vnum (p : ℚ)) ∧ 1 ≤ p ∧ p ≤ 65535) ∧
    (∃ f, pyGetItem t "frequency" = .ok f ∧ floatLeZero f = false ∧
      (∀ q : ℚ, f = .vnum q →
        0 < q ∧ pyDivOneBy f = .ok (.vnum (1 / q)) ∧ 0 < 1 / q)) ∧
    (∃ tm, pyGetItem t "timeout" = .ok tm ∧ floatLeZero tm = false)

/-! ## Concrete configurations used in witnesses and counterexamples -/

/-- A minimal valid configuration document: `target: {address: localhost}`. -/
def minimalCfg : Value := .vdict [("target", .vdict [("address", .vstr "localhost")])]

/-- What `verify_config` stores for `minimalCfg`: every optional field
defaulted, `server` defaulted to port 8000. -/
def minimalOut : Value := .vdict
  [ ("target", .vdict
      [ ("address", .vstr "localhost"), ("port", .vnum 80), ("pathname", .vstr "/"),
        ("protocol", .vstr "http"), ("frequency", .vnum 1), ("timeout", .vnum 1),
        ("verify_ssl", .vbool true) ]),
    ("server", .vdict [("port", .vnum 8000)]) ]

/-- A configuration document whose target port is out of range:
`target: {address: a, port: 0}`. -/
def badPortCfg : Value := .vdict [("target", .vdict [("address", .vstr "a"), ("port", .vnum 0)])]

/-- Snapshot A for the reload-during-composition scenario. -/
def cfgA : Value := .vdict [("target", .vdict
  [ ("protocol", .vstr "http"), ("address", .vstr "a"), ("port", .vnum 1),
    ("pathname", .vstr "/x") ])]

/-- Snapshot B for the reload-during-composition scenario. -/
def cfgB : Value := .vdict [("target", .vdict
  [ ("protocol", .vstr "https"), ("address", .vstr "b"), ("port", .vnum 2),
    ("pathname", .vstr "/y") ])]

/-- A fully specified valid configuration used to instantiate witnesses. -/
def cfgC : Value := .vdict [("target", .vdict
  [ ("address", .vstr "localhost"), ("protocol", .vstr "http"), ("port", .vnum 8080),
    ("pathname", .vstr "/health"), ("frequency", .vnum 4), ("timeout", .vnum 2),
    ("verify_ssl", .vbool true) ])]

/-- A configuration document with `frequency: .nan` (PyYAML's FullLoader
resolves `.nan` to `float('nan')`): `target: {address: a, frequency: .nan}`. -/
def nanFreqCfg : Value := .vdict [("target", .vdict
  [("address", .vstr "a"), ("frequency", .vnan)])]

/-- What `verify_config` stores for `nanFreqCfg`: the nan frequency passes
`check_frequency` (IEEE `nan <= 0` is False) and is stored unchanged. -/
def nanFreqOut : Value := .vdict
  [ ("target", .vdict
      [ ("address", .vstr "a"), ("frequency", .vnan), ("port", .vnum 80),
        ("pathname", .vstr "/"), ("protocol", .vstr "http"), ("timeout", .vnum 1),
        ("verify_ssl", .vbool true) ]),
    ("server", .vdict [("port", .vnum 8000)]) ]

/-- A configuration document with `frequency: .inf`:
`target: {address: a, frequency: .inf}`. -/
def infFreqCfg : Value := .vdict [("target", .vdict
  [("address", .vstr "a"), ("frequency", .vinf)])]

/-- What `verify_config` stores for `infFreqCfg`: the infinite frequency
passes `check_frequency` (IEEE `inf <= 0` is False) and is stored unchanged. -/
def infFreqOut : Value := .vdict
  [ ("target", .vdict
      [ ("address", .vstr "a"), ("frequency", .vinf), ("port", .vnum 80),
        ("pathname", .vstr "/"), ("protocol", .vstr "http"), ("timeout", .vnum 1),
        ("verify_ssl", .vbool true) ]),
    ("server", .vdict [("port", .vnum 8000)]) ]

/-! ## Helper lemmas -/

theorem alookup_setKey_self {K A : Type} [DecidableEq K] (es : List (K × A)) (k : K) (a : A) :
    alookup (setKey es k a) k = some a := by
  induction es with
  | nil => simp [setKey, alookup]
  | cons h t ih =>
    obtain ⟨k', a'⟩ := h
    by_cases hk : k' = k
    · simp [setKey, hk, alookup]
    · simp [setKey, hk, alookup, ih]

theorem alookup_setKey_ne {K A : Type} [DecidableEq K] (es : List (K × A)) (k k' : K) (a : A)
    (h : k' ≠ k) : alookup (setKey es k a) k' = alookup es k' := by
  induction es with
  | nil => simp [setKey, alookup, Ne.symm h]
  | cons hd t ih =>
    obtain ⟨k₀, a₀⟩ := hd
    by_cases hk : k₀ = k
    · subst hk
      simp [setKey, alookup, Ne.symm h]
    · by_cases hk' : k₀ = k'
      · simp [setKey, hk, alookup, hk', h]
      · simp [setKey, hk, alookup, hk', h, ih]

theorem countSum_bump {K : Type} [DecidableEq K] (l : List (K × ℕ)) (k : K) :
    countSum (bump l k) = countSum l + 1 := by
  induction l with
  | nil => simp [bump, countSum]
  | cons h t ih =>
    obtain ⟨k', n⟩ := h
    by_cases hk : k' = k
    · simp [bump, hk, countSum]
      omega
    · simp [bump, hk, countSum] at ih ⊢
      omega

theorem alookup_bump_self {K : Type} [DecidableEq K] (l : List (K × ℕ)) (k : K) :
    alookup (bump l k) k = some ((alookup l k).getD 0 + 1) := by
  induction l with
  | nil => simp [bump, alookup]
  | cons h t ih =>
    obtain ⟨k', n⟩ := h
    by_cases hk : k' = k
    · simp [bump, hk, alookup]
    · simp [bump, hk, alookup, ih]

theorem alookup_appendObs_self {K : Type} [DecidableEq K] (l : List (K × List ℚ)) (k : K) (x : ℚ) :
    alookup (appendObs l k x) k = some ((alookup l k).getD [] ++ [x]) := by
  induction l with
  | nil => simp [appendObs, alookup]
  | cons h t ih =>
    obtain ⟨k', xs⟩ := h
    by_cases hk : k' = k
    · simp [appendObs, hk, alookup]
    · simp [appendObs, hk, alookup, ih]

theorem pySetItem_ok {t : Value} {k : String} {w t' : Value}
    (h : pySetItem t k w = .ok t') : ∃ es, t = .vdict es ∧ t' = .vdict (setKey es k w) := by
  cases t <;> simp [pySetItem] at h
  exact ⟨_, rfl, h.symm⟩

theorem check_port_ok {v : Value} {p : ℤ} (h : check_port v = .ok p) :
    1 ≤ p ∧ p ≤ 65535 := by
  unfold check_port at h
  split at h
  · split at h <;> simp at h
  · split at h
    · simp at h
    · split at h
      · simp at h
      · rw [Except.ok.injEq] at h
        subst h
        omega

theorem floatLeZero_vnum_false {q : ℚ} (h : floatLeZero (.vnum q) = false) : 0 < q := by
  simp [floatLeZero] at h
  exact h

theorem check_frequency_ok {v : Value} {f : Value} (h : check_frequency v = .ok f) :
    floatLeZero f = false := by
  unfold check_frequency at h
  split at h
  · split at h <;> simp at h
  · split at h
    · simp at h
    · rw [Except.ok.injEq] at h
      subst h
      simp [Bool.not_eq_true] at *
      assumption

theorem check_timeout_ok {v : Value} {t : Value} (h : check_timeout v = .ok t) :
    floatLeZero t = false := by
  unfold check_timeout at h
  split at h
  · split at h <;> simp at h
  · split at h
    · simp at h
    · rw [Except.ok.injEq] at h
      subst h
      simp [Bool.not_eq_true] at *
      assumption

theorem checkPortValue_ok {v w : Value} (h : checkPortValue v = .ok w) :
    ∃ p : ℤ, w = .vnum (p : ℚ) ∧ 1 ≤ p ∧ p ≤ 65535 := by
  unfold checkPortValue at h
  split at h
  · simp at h
  · rw [Except.ok.injEq] at h
    next p heq => exact ⟨p, h.symm, check_port_ok heq⟩

theorem checkFrequencyValue_ok {v w : Value} (h : checkFrequencyValue v = .ok w) :
    floatLeZero w = false :=
  check_frequency_ok h

theorem checkTimeoutValue_ok {v w : Value} (h : checkTimeoutValue v = .ok w) :
    floatLeZero w = false :=
  check_timeout_ok h

theorem setCheckedStep_ok {t : Value} {k : String} {d : Value}
    {chk : Value → Except PyExc Value} {t' : Value}
    (h : setCheckedStep t k d chk = .ok t') :
    ∃ es w, t = .vdict es ∧ t' = .vdict (setKey es k w) ∧
      (w = d ∨ ∃ v0, chk v0 = .ok w) := by
  unfold setCheckedStep at h
  split at h
  · simp at h
  · obtain ⟨es, het, het'⟩ := pySetItem_ok h
    exact ⟨es, d, het, het', Or.inl rfl⟩
  · split at h
    · simp at h
    · next v0 hv0 =>
      split at h
      · simp at h
      · next w hw =>
        obtain ⟨es, het, het'⟩ := pySetItem_ok h
        exact ⟨es, w, het, het', Or.inr ⟨v0, hw⟩⟩

theorem setPlainStep_ok {t : Value} {k : String} {d : Value} {t' : Value}
    (h : setPlainStep t k d = .ok t') :
    ∃ es w, t = .vdict es ∧ t' = .vdict (setKey es k w) := by
  unfold setPlainStep at h
  split at h
  · simp at h
  · obtain ⟨es, het, het'⟩ := pySetItem_ok h
    exact ⟨es, d, het, het'⟩
  · split at h
    · simp at h
    · next v hv =>
      obtain ⟨es, het, het'⟩ := pySetItem_ok h
      exact ⟨es, v, het, het'⟩

theorem pyGetItem_dict {es : List (String × Value)} {k : String} {x : Value} :
    pyGetItem (.vdict es) k = .ok x ↔ alookup es k = some x := by
  unfold pyGetItem
  cases hl : alookup es k <;> simp [hl]

theorem setCheckedStep_dict {es : List (String × Value)} {k : String} {d : Value}
    {chk : Value → Except PyExc Value} {t' : Value}
    (h : setCheckedStep (.vdict es) k d chk = .ok t') :
    ∃ w, t' = .vdict (setKey es k w) ∧ (w = d ∨ ∃ v0, chk v0 = .ok w) := by
  obtain ⟨es', w, hes, ht', hw⟩ := setCheckedStep_ok h
  rw [Value.vdict.injEq] at hes
  subst hes
  exact ⟨w, ht', hw⟩

theorem setPlainStep_dict {es : List (String × Value)} {k : String} {d : Value} {t' : Value}
    (h : setPlainStep (.vdict es) k d = .ok t') :
    ∃ w, t' = .vdict (setKey es k w) := by
  obtain ⟨es', w, hes, ht'⟩ := setPlainStep_ok h
  rw [Value.vdict.injEq] at hes
  subst hes
  exact ⟨w, ht'⟩

theorem verifyTarget_ok {t t' : Value} (h : verifyTarget t = .ok (true, t')) :
    ∃ es', t' = .vdict es' ∧
      (∀ k ∈ requiredTargetKeys, ∃ x, alookup es' k = some x) ∧
      (∃ p : ℤ, alookup es' "port" = some (.vnum (p : ℚ)) ∧ 1 ≤ p ∧ p ≤ 65535) ∧
      (∃ f, alookup es' "frequency" = some f ∧ floatLeZero f = false) ∧
      (∃ tm, alookup es' "timeout" = some tm ∧ floatLeZero tm = false) := by
  unfold verifyTarget at h
  split at h
  · simp at h
  · simp at h
  · next haddr =>
    split at h
    · simp at h
    · next t1 h1 =>
      split at h
      · simp at h
      · next t2 h2 =>
        split at h
        · simp at h
        · next t3 h3 =>
          split at h
          · simp at h
          · next t4 h4 =>
            split at h
            · simp at h
            · next t5 h5 =>
              split at h
              · simp at h
              · next t6 h6 =>
                rw [Except.ok.injEq, Prod.mk.injEq] at h
                obtain ⟨-, rfl⟩ := h
                obtain ⟨es0, w1, rfl, rfl, hw1⟩ := setCheckedStep_ok h1
                obtain ⟨w2, rfl⟩ := setPlainStep_dict h2
                obtain ⟨w3, rfl⟩ := setPlainStep_dict h3
                obtain ⟨w4, rfl, hw4⟩ := setCheckedStep_dict h4
                obtain ⟨w5, rfl, hw5⟩ := setCheckedStep_dict h5
                obtain ⟨w6, rfl⟩ := setPlainStep_dict h6
                simp only [pyIn, Except.ok.injEq] at haddr
                rw [Option.isSome_iff_exists] at haddr
                obtain ⟨a, ha⟩ := haddr
                refine ⟨_, rfl, ?_, ?_, ?_, ?_⟩
                · intro k hk
                  have laddr : alookup (setKey (setKey (setKey (setKey (setKey (setKey es0
                      "port" w1) "pathname" w2) "protocol" w3) "frequency" w4) "timeout" w5)
                      "verify_ssl" w6) "address" = some a := by
                    rw [alookup_setKey_ne _ _ _ _ (by decide),
                      alookup_setKey_ne _ _ _ _ (by decide),
                      alookup_setKey_ne _ _ _ _ (by decide),
                      alookup_setKey_ne _ _ _ _ (by decide),
                      alookup_setKey_ne _ _ _ _ (by decide),
                      alookup_setKey_ne _ _ _ _ (by decide)]
                    exact ha
                  simp only [requiredTargetKeys, List.mem_cons, List.not_mem_nil, or_false] at hk
                  rcases hk with rfl | rfl | rfl | rfl | rfl | rfl | rfl
                  · exact ⟨a, laddr⟩
                  · refine ⟨w1, ?_⟩
                    rw [alookup_setKey_ne _ _ _ _ (by decide),
                      alookup_setKey_ne _ _ _ _ (by decide),
                      alookup_setKey_ne _ _ _ _ (by decide),
                      alookup_setKey_ne _ _ _ _ (by decide),
                      alookup_setKey_ne _ _ _ _ (by decide)]
                    exact alookup_setKey_self _ _ _
                  · refine ⟨w2, ?_⟩
                    rw [alookup_setKey_ne _ _ _ _ (by decide),
                      alookup_setKey_ne _ _ _ _ (by decide),
                      alookup_setKey_ne _ _ _ _ (by decide),
                      alookup_setKey_ne _ _ _ _ (by decide)]
                    exact alookup_setKey_self _ _ _
                  · refine ⟨w3, ?_⟩
                    rw [alookup_setKey_ne _ _ _ _ (by decide),
                      alookup_setKey_ne _ _ _ _ (by decide),
                      alookup_setKey_ne _ _ _ _ (by decide)]
                    exact alookup_setKey_self _ _ _
                  · refine ⟨w4, ?_⟩
                    rw [alookup_setKey_ne _ _ _ _ (by decide),
                      alookup_setKey_ne _ _ _ _ (by decide)]
                    exact alookup_setKey_self _ _ _
                  · refine ⟨w5, ?_⟩
                    rw [alookup_setKey_ne _ _ _ _ (by decide)]
                    exact alookup_setKey_self _ _ _
                  · exact ⟨w6, alookup_setKey_self _ _ _⟩
                · have lport : alookup (setKey (setKey (setKey (setKey (setKey (setKey es0
                      "port" w1) "pathname" w2) "protocol" w3) "frequency" w4) "timeout" w5)
                      "verify_ssl" w6) "port" = some w1 := by
                    rw [alookup_setKey_ne _ _ _ _ (by decide),
                      alookup_setKey_ne _ _ _ _ (by decide),
                      alookup_setKey_ne _ _ _ _ (by decide),
                      alookup_setKey_ne _ _ _ _ (by decide),
                      alookup_setKey_ne _ _ _ _ (by decide)]
                    exact alookup_setKey_self _ _ _
                  rcases hw1 with rfl | ⟨v0, hv0⟩
                  · refine ⟨80, ?_, by norm_num, by norm_num⟩
                    rw [lport]
                    norm_num
                  · obtain ⟨p, rfl, hp1, hp2⟩ := checkPortValue_ok hv0
                    exact ⟨p, lport, hp1, hp2⟩
                · have lfreq : alookup (setKey (setKey (setKey (setKey (setKey (setKey es0
                      "port" w1) "pathname" w2) "protocol" w3) "frequency" w4) "timeout" w5)
                      "verify_ssl" w6) "frequency" = some w4 := by
                    rw [alookup_setKey_ne _ _ _ _ (by decide),
                      alookup_setKey_ne _ _ _ _ (by decide)]
                    exact alookup_setKey_self _ _ _
                  rcases hw4 with rfl | ⟨v0, hv0⟩
                  · exact ⟨_, lfreq, by decide⟩
                  · exact ⟨w4, lfreq, checkFrequencyValue_ok hv0⟩
                · have ltm : alookup (setKey (setKey (setKey (setKey (setKey (setKey es0
                      "port" w1) "pathname" w2) "protocol" w3) "frequency" w4) "timeout" w5)
                      "verify_ssl" w6) "timeout" = some w5 := by
                    rw [alookup_setKey_ne _ _ _ _ (by decide)]
                    exact alookup_setKey_self _ _ _
                  rcases hw5 with rfl | ⟨v0, hv0⟩
                  · exact ⟨_, ltm, by decide⟩
                  · exact ⟨w5, ltm, checkTimeoutValue_ok hv0⟩

theorem exceptChain_eq (endpoint : String) (e : PyExc) (s : MetricState) :
    exceptChain endpoint e s = .ok (recordError s endpoint (classify e)) := by
  unfold exceptChain classify
  rcases e with re | _ | _ | _ | _ | _ | _ | _ | _ | _
  · cases re <;> rfl
  all_goals rfl

theorem completedTotal_recordError (s : MetricState) (endpoint k : String) :
    completedTotal (recordError s endpoint k) = completedTotal s := rfl

theorem errorTotal_recordError (s : MetricState) (endpoint k : String) :
    errorTotal (recordError s endpoint k) = errorTotal s + 1 := by
  unfold errorTotal recordError
  exact countSum_bump _ _

theorem completedTotal_recordCompleted (s : MetricState) (endpoint : String) (code : ℕ) :
    completedTotal (recordCompleted s endpoint code) = completedTotal s + 1 := by
  unfold completedTotal recordCompleted
  exact countSum_bump _ _

theorem classify_mem_errorKinds (e : PyExc) : classify e ∈ errorKinds := by
  unfold classify errorKinds
  rcases e with re | _ | _ | _ | _ | _ | _ | _ | _ | _
  · cases re <;> simp [isHTTPError, isConnectionError, isTooManyRedirects, isTimeout,
      isRequestException]
  all_goals simp [isHTTPError, isConnectionError, isTooManyRedirects, isTimeout,
    isRequestException]

theorem schedRun_replicate_zero (k : ℕ) :
    schedRun (List.replicate k 0) = ⟨k, k⟩ := by
  have general : ∀ (k : ℕ) (s : SchedState),
      (List.replicate k 0).foldl schedStep s = ⟨s.ticks + k, s.inflight + k⟩ := by
    intro k
    induction k with
    | zero => intro s; simp
    | succ n ih =>
      intro s
      rw [List.replicate_succ, List.foldl_cons, ih]
      simp [schedStep]
      omega
  rw [schedRun, general]
  simp

/-! ## Claim theorems -/

/-- Claim C1, counterexample: the claim asserts that exactly one counter is
incremented per attempt "regardless of which exceptions the GET call or the
subsequent metric/latency bookkeeping raise".  At the concrete input where
the GET returns a 200 response and the latency bookkeeping of lines 163-164
then raises, the completion counter has already been incremented (line 161)
and the `except Exception` clause increments the error counter as well: both
totals are 1 after a single attempt -- two increments, not one. -/
theorem C1_counterexample_double_increment :
    http_request "http://t" (.response 200) (1/20) (some .otherExc) initMetrics =
      .ok ⟨[(("GET", "http://t", 200), 1)], [(("GET", "http://t", "unknown"), 1)], []⟩ ∧
    completedTotal ⟨[(("GET", "http://t", 200), 1)], [(("GET", "http://t", "unknown"), 1)], []⟩ = 1 ∧
    errorTotal ⟨[(("GET", "http://t", 200), 1)], [(("GET", "http://t", "unknown"), 1)], []⟩ = 1 :=
  ⟨rfl, rfl, rfl⟩

/-- Claim C1, amended: when the in-`try` bookkeeping completes normally,
every probe attempt increments exactly one Metric Sink counter -- the
completion counter on a response, the error counter on a raised exception
(never zero, never two); but when the latency bookkeeping raises after a
response, both the completion counter and the error counter are incremented
for the single attempt. -/
theorem C1_amended_exactly_one_counter :
    (∀ endpoint get elapsed s, ∃ s',
      http_request endpoint get elapsed none s = .ok s' ∧
      ((completedTotal s' = completedTotal s + 1 ∧ errorTotal s' = errorTotal s) ∨
       (completedTotal s' = completedTotal s ∧ errorTotal s' = errorTotal s + 1))) ∧
    (∀ endpoint code elapsed e s, ∃ s'',
      http_request endpoint (.response code) elapsed (some e) s = .ok s'' ∧
      completedTotal s'' = completedTotal s + 1 ∧ errorTotal s'' = errorTotal s + 1) := by
  constructor
  · intro endpoint get elapsed s
    cases get with
    | response code =>
      exact ⟨_, rfl, Or.inl ⟨completedTotal_recordCompleted s endpoint code, rfl⟩⟩
    | raises e =>
      exact ⟨_, exceptChain_eq endpoint e s,
        Or.inr ⟨rfl, errorTotal_recordError s endpoint (classify e)⟩⟩
  · intro endpoint code elapsed e s
    exact ⟨_, exceptChain_eq endpoint e (recordCompleted s endpoint code),
      completedTotal_recordCompleted s endpoint code,
      errorTotal_recordError (recordCompleted s endpoint code) endpoint (classify e)⟩

/-- Claim C2: `http_request` is total -- for every outcome of the GET call
(and of the bookkeeping) it returns normally, never propagating an
exception; a raised exception is mapped to exactly one error label, namely
`classify e`, which always lies in the closed set
{http, connection, redirects, timeout, request, unknown}; and every
exception outside the `requests` hierarchy falls through to `unknown`. -/
theorem C2_classifier_total_never_raises :
    (∀ endpoint get elapsed obs s, ∃ s', http_request endpoint get elapsed obs s = .ok s') ∧
    (∀ e : PyExc, classify e ∈ errorKinds) ∧
    (∀ endpoint e elapsed obs s,
      http_request endpoint (.raises e) elapsed obs s =
        .ok (recordError s endpoint (classify e))) ∧
    (∀ e : PyExc, isRequestException e = false → classify e = "unknown") := by
  refine ⟨?_, classify_mem_errorKinds, ?_, ?_⟩
  · intro endpoint get elapsed obs s
    cases get with
    | raises e => exact ⟨_, exceptChain_eq endpoint e s⟩
    | response code =>
      cases obs with
      | some e => exact ⟨_, exceptChain_eq endpoint e (recordCompleted s endpoint code)⟩
      | none => exact ⟨_, rfl⟩
  · intro endpoint e elapsed obs s
    exact exceptChain_eq endpoint e s
  · intro e
    rcases e with re | _ | _ | _ | _ | _ | _ | _ | _ | _
    · cases re <;> decide
    all_goals decide

/-- Claim C2, witness: a `ValueError` (not a `RequestException`) is
classified `unknown`. -/
theorem C2_witness_value_error_unknown : classify .valueError = "unknown" :=
  C2_classifier_total_never_raises.2.2.2 .valueError rfl

/-- Claim C3, counterexample: `ConnectTimeout` is a
`requests.exceptions.Timeout` (`isinstance` is true), yet the classifier
labels it `connection`, not `timeout`, because the `except ConnectionError`
clause on line 167 precedes the `except Timeout` clause on line 171 -- so
"a timeout is labeled 'timeout' (not 'request' or 'connection')" fails. -/
theorem C3_counterexample_connect_timeout :
    isTimeout (.reqExc .connectTimeout) = true ∧
    classify (.reqExc .connectTimeout) = "connection" ∧
    classify (.reqExc .connectTimeout) ≠ "timeout" := by
  refine ⟨rfl, rfl, ?_⟩
  decide

/-- Claim C3, amended: the classifier is first-match over the source order
http, connection, redirects, timeout, request, unknown.  A failure lying in
exactly one specific category receives that category rather than the broader
`request`: every `HTTPError` is labeled `http`, every `TooManyRedirects` is
labeled `redirects` (not `request`), and every `Timeout` that is not also a
`ConnectionError` is labeled `timeout`; a failure in none of the four
specific categories is labeled `request`.  But `ConnectTimeout`, which
belongs to both the connection and timeout categories (neither of which
contains the other), is labeled `connection` because the connection check
comes first -- the code does not implement a "narrowest category" rule for
incomparably overlapping categories. -/
theorem C3_amended_first_match_classification :
    (∀ e, isHTTPError e = true → classify e = "http") ∧
    (∀ e, isTooManyRedirects e = true → classify e = "redirects") ∧
    (∀ e, isTimeout e = true → isConnectionError e = false → classify e = "timeout") ∧
    (∀ e, isRequestException e = true → isHTTPError e = false → isConnectionError e = false →
      isTooManyRedirects e = false → isTimeout e = false → classify e = "request") ∧
    classify (.reqExc .connectTimeout) = "connection" := by
  refine ⟨?_, ?_, ?_, ?_, rfl⟩ <;>
    (intro e
     rcases e with re | _ | _ | _ | _ | _ | _ | _ | _ | _
     · cases re <;> decide
     all_goals decide)

/-- Claim C3, witness for the amended claim: a redirect-limit failure is
labeled `redirects` and a read timeout is labeled `timeout`. -/
theorem C3_amended_witness :
    classify (.reqExc .tooManyRedirects) = "redirects" ∧
    classify (.reqExc .readTimeout) = "timeout" :=
  ⟨C3_amended_first_match_classification.2.1 (.reqExc .tooManyRedirects) rfl,
   C3_amended_first_match_classification.2.2.1 (.reqExc .readTimeout) rfl rfl⟩

/-- Claim C4, counterexample: the program registers no gauge family at all
-- `http_probe_latest_latency_seconds` is not among the metric families
created on lines 87-98 -- so a completed request cannot set any last-value
latency gauge; it only increments the completion counter and appends the
measured latency to the histogram, as the concrete run shows. -/
theorem C4_counterexample_no_gauge_family :
    (registryFamilies.map Prod.fst).contains (APP_METRIC_STEM ++ "_latest_latency_seconds")
      = false ∧
    http_request "http://t" (.response 200) (1/20) none initMetrics =
      .ok ⟨[(("GET", "http://t", 200), 1)], [], [(("GET", "http://t"), [1/20])]⟩ :=
  ⟨rfl, rfl⟩

/-- Claim C4, amended: for every completed request the measured latency is
appended to the latency histogram (and the completion counter incremented),
but no last-value gauge is set: this program variant registers no
`<prefix>_latest_latency_seconds` gauge family. -/
theorem C4_amended_histogram_only (endpoint : String) (code : ℕ) (elapsed : ℚ)
    (s : MetricState) :
    http_request endpoint (.response code) elapsed none s =
      .ok (recordObservation (recordCompleted s endpoint code) endpoint elapsed) ∧
    alookup (recordObservation (recordCompleted s endpoint code) endpoint elapsed).histogram
        ("GET", endpoint) =
      some ((alookup s.histogram ("GET", endpoint)).getD [] ++ [elapsed]) ∧
    (registryFamilies.map Prod.fst).contains (APP_METRIC_STEM ++ "_latest_latency_seconds")
      = false :=
  ⟨rfl, alookup_appendObs_self s.histogram ("GET", endpoint) elapsed, rfl⟩

/-- Claim C5, counterexample: the four URL fields are read from the global
`config` in two separate statements (lines 182-183), and a SIGHUP reload may
rebind the global between the reads; with snapshot A current for the
protocol and address reads and snapshot B current for the port and pathname
reads, the composed URL `http://a:2/y` mixes the two snapshots and equals
the composition of neither. -/
theorem C5_counterexample_mixed_snapshot :
    composeWithSnapshots cfgA cfgA cfgB cfgB = .ok "http://a:2/y" ∧
    composeCycle cfgA = .ok "http://a:1/x" ∧
    composeCycle cfgB = .ok "https://b:2/y" ∧
    "http://a:2/y" ≠ "http://a:1/x" ∧
    "http://a:2/y" ≠ "https://b:2/y" := by
  refine ⟨rfl, rfl, rfl, ?_, ?_⟩ <;> decide

/-- Claim C5, amended: when no reload occurs during composition (all four
reads see the same snapshot), the cycle's URL is exactly
`protocol://address:port pathname` built from that one snapshot's four
fields; but because the reads are sequential on the mutable global, a reload
between reads can produce a URL mixing fields of two snapshots. -/
theorem C5_amended_single_snapshot_compose (cfg p a po pa : Value)
    (hp : readTargetField cfg "protocol" = .ok p)
    (ha : readTargetField cfg "address" = .ok a)
    (hpo : readTargetField cfg "port" = .ok po)
    (hpa : readTargetField cfg "pathname" = .ok pa) :
    composeCycle cfg = .ok (composeEndpoint p a po pa) := by
  unfold composeCycle composeWithSnapshots
  rw [hp, ha, hpo, hpa]

/-- Claim C5, witness: the amended composition law at snapshot A. -/
theorem C5_amended_witness :
    composeCycle cfgA = .ok (composeEndpoint (.vstr "http") (.vstr "a") (.vnum 1) (.vstr "/x")) :=
  C5_amended_single_snapshot_compose cfgA _ _ _ _ rfl rfl rfl rfl

/-- Claim C6 (code bug): on reload, only failures that are `IOError`s (or
return `False` from `verify_config`) are non-fatal.  A reload whose config
has an out-of-range port raises `argparse.ArgumentTypeError`, and one whose
file is invalid YAML raises `yaml.YAMLError`; neither is caught by the
`except IOError` clause of `load_configuration`, so the exception escapes
the SIGHUP handler `reload_configuration` into the interrupted main thread
-- probing does not continue.  An unreadable file, by contrast, is caught
and leaves the previous config `g` in effect, and a startup load failure
does exit with a non-zero status (-1 from `sys.exit`, 1 from an uncaught
exception). -/
theorem C6_code_bug_reload_can_raise :
    (∀ g, reload_configuration (.parsed (.ok badPortCfg)) g = .error .argumentTypeError) ∧
    (∀ g, reload_configuration (.parsed (.error ())) g = .error .yamlError) ∧
    (∀ g, reload_configuration .ioError g = .ok g) ∧
    startupExitCode (.parsed (.ok badPortCfg)) = some 1 ∧
    startupExitCode .ioError = some (-1) :=
  ⟨fun _ => rfl, fun _ => rfl, fun _ => rfl, rfl, rfl⟩

/-- Claim C7: the wait at the end of every scheduler cycle is exactly
`1 / frequency` seconds, with the frequency taken from the snapshot the
cycle reads, and the cycle's effect -- in particular its sleep duration --
does not depend on the dispatched request's latency (the thread is started
on line 189 and never joined; no drift compensation exists). -/
theorem C7_sleep_is_inverse_frequency (cfg : Value) (f : ℚ) (l l' : ℚ) (r : CycleEffect)
    (hf : readTargetField cfg "frequency" = .ok (.vnum f)) (hf0 : f ≠ 0)
    (hr : mainCycle cfg l = .ok r) :
    r.sleepSeconds = .vnum (1 / f) ∧ mainCycle cfg l' = mainCycle cfg l := by
  refine ⟨?_, rfl⟩
  unfold mainCycle at hr
  split at hr
  · simp at hr
  · split at hr
    · simp at hr
    · split at hr
      · simp at hr
      · split at hr
        · simp at hr
        · next fv hfv =>
          split at hr
          · simp at hr
          · next slp hslp =>
            rw [Except.ok.injEq] at hr
            subst hr
            rw [hf, Except.ok.injEq] at hfv
            subst hfv
            simp only [pyDivOneBy] at hslp
            rw [if_neg hf0, Except.ok.injEq] at hslp
            exact hslp.symm

/-- Claim C7, witness: at the concrete snapshot `cfgC` (frequency 4) the
cycle sleeps 1/4 second and its effect is the same for any request latency. -/
theorem C7_witness :
    (⟨"http://localhost:8080/health", .vnum 2, .vbool true,
        .vnum (1/4)⟩ : CycleEffect).sleepSeconds = .vnum (1 / 4) ∧
    mainCycle cfgC 1 = mainCycle cfgC 0 :=
  C7_sleep_is_inverse_frequency cfgC 4 0 1
    ⟨"http://localhost:8080/health", .vnum 2, .vbool true, .vnum (1/4)⟩ rfl (by norm_num) rfl

/-- Claim C8, counterexample: at metric-state initialization nothing is
pre-registered -- prometheus_client creates label children lazily, and the
program calls `labels()` only inside `http_request` -- so before any traffic
every error-type combination for a target is absent (`none`), not present
with value zero, refuting the claim at the concrete target
`http://localhost:80/`. -/
theorem C8_counterexample_nothing_preregistered :
    ¬ (∀ k ∈ errorKinds,
        alookup initMetrics.errors ("GET", "http://localhost:80/", k) = some 0) := by
  intro h
  have hhttp := h "http" (by simp [errorKinds])
  simp [initMetrics, alookup] at hhttp

/-- Claim C8, amended: initialization creates the metric families with
their label names but registers no label combination; every error series
is absent before traffic, and a series first appears -- with value 1, not
0 -- when its first error is recorded. -/
theorem C8_amended_lazy_registration :
    initMetrics.errors = [] ∧
    (∀ key : String × String × String, alookup initMetrics.errors key = none) ∧
    (∀ endpoint k,
      alookup (recordError initMetrics endpoint k).errors ("GET", endpoint, k) = some 1) := by
  refine ⟨rfl, fun _ => rfl, ?_⟩
  intro endpoint k
  simp [recordError, initMetrics, bump, alookup]

/-- Claim C9, counterexample: no fixed bound on in-flight attempts exists.
The loop spawns one thread per tick unconditionally; against an environment
that completes nothing (a hung or drip-feeding server), after `N + 1` ticks
`N + 1` attempts are in flight, exceeding any proposed bound `N`. -/
theorem C9_counterexample_unbounded_inflight :
    ¬ ∃ N : ℕ, ∀ cs : List ℕ, (schedRun cs).inflight ≤ N := by
  rintro ⟨N, hN⟩
  have h := hN (List.replicate (N + 1) 0)
  rw [schedRun_replicate_zero] at h
  exact Nat.not_succ_le_self N h

/-- Claim C9, amended: the scheduler spawns exactly one new probe attempt
per tick, unconditionally; with no completions, the number of in-flight
attempts after `k` ticks is exactly `k` and grows without bound -- there is
no worker pool, cap, or drop policy. -/
theorem C9_amended_one_spawn_per_tick :
    (∀ s c, (schedStep s c).ticks = s.ticks + 1) ∧
    (∀ k, (schedRun (List.replicate k 0)).inflight = k) := by
  refine ⟨fun _ _ => rfl, fun k => ?_⟩
  rw [schedRun_replicate_zero]

/-- Claim C10, counterexample: the claim's "frequency a float strictly
greater than 0" and "the sleep duration 1/frequency is a well-defined
positive number" fail on non-finite floats, which the source's IEEE
comparison lets through.  For the document `target: {address: a,
frequency: .nan}`, `check_frequency` does not raise (`nan <= 0` is False),
`verify_config` returns `True`, and the stored frequency is `nan` -- which
is not strictly greater than 0 (`nan > 0` is also False).  For
`frequency: .inf`, `verify_config` likewise returns `True` and the sleep
duration `1 / inf` is `0.0`, which is not positive. -/
theorem C10_counterexample_nonfinite_frequency :
    verify_config nanFreqCfg = .ok (true, nanFreqOut) ∧
    readTargetField nanFreqOut "frequency" = .ok .vnan ∧
    floatGtZero .vnan = false ∧
    verify_config infFreqCfg = .ok (true, infFreqOut) ∧
    readTargetField infFreqOut "frequency" = .ok .vinf ∧
    floatGtZero .vinf = true ∧
    pyDivOneBy .vinf = .ok (.vnum 0) ∧
    floatGtZero (.vnum 0) = false := by
  refine ⟨rfl, rfl, rfl, rfl, rfl, rfl, rfl, ?_⟩
  decide

/-- Claim C10, amended: whenever `verify_config` returns `True`, the stored
configuration's `target` entry contains all of address, port, pathname,
protocol, frequency, timeout and verify_ssl, and the port is an integer in
[1, 65535], so every field lookup the scheduler loop performs succeeds.
The frequency and timeout are float values on which the program's IEEE
`<= 0` test is false: when the frequency is a finite number this makes it
strictly positive and `1 / frequency` a well-defined positive number, but
the non-finite floats `nan` and `+inf` also pass the test, so a validated
frequency need not be a positive number and the sleep duration need not be
positive. -/
theorem C10_verify_config_postcondition (v v' : Value)
    (h : verify_config v = .ok (true, v')) : validatedTargetPost v' := by
  cases v with
  | vnull => simp [verify_config] at h
  | vbool b => simp [verify_config] at h
  | vnum q => simp [verify_config] at h
  | vnan => simp [verify_config] at h
  | vinf => simp [verify_config] at h
  | vninf => simp [verify_config] at h
  | vstr s => simp [verify_config] at h
  | vlist xs => simp [verify_config] at h
  | vdict es0 =>
    unfold verify_config at h
    split at h
    · split at h
      · simp at h
      · next cfg1 hcfg1 =>
        split at h
        · simp at h
        · simp at h
        · next htgt =>
          split at h
          · simp at h
          · next target htarget =>
            split at h
            · simp at h
            · simp at h
            · next target' hvt =>
              split at h
              · simp at h
              · next cfg2 hset =>
                rw [Except.ok.injEq, Prod.mk.injEq] at h
                obtain ⟨-, rfl⟩ := h
                obtain ⟨es1, hcfg1d, rfl⟩ := pySetItem_ok hset
                obtain ⟨es', rfl, hkeys, hport, hfreq, htm⟩ := verifyTarget_ok hvt
                unfold validatedTargetPost
                refine ⟨.vdict es', pyGetItem_dict.mpr (alookup_setKey_self _ _ _),
                  ?_, ?_, ?_, ?_⟩
                · intro k hk
                  obtain ⟨x, hx⟩ := hkeys k hk
                  exact ⟨x, pyGetItem_dict.mpr hx⟩
                · obtain ⟨p, hp, h1, h2⟩ := hport
                  exact ⟨p, pyGetItem_dict.mpr hp, h1, h2⟩
                · obtain ⟨f, hfv, hfle⟩ := hfreq
                  refine ⟨f, pyGetItem_dict.mpr hfv, hfle, ?_⟩
                  rintro q rfl
                  have h0 : 0 < q := floatLeZero_vnum_false hfle
                  refine ⟨h0, ?_, one_div_pos.mpr h0⟩
                  simp only [pyDivOneBy]
                  rw [if_neg h0.ne']
                · obtain ⟨tm, htmv, htm0⟩ := htm
                  exact ⟨tm, pyGetItem_dict.mpr htmv, htm0⟩
    · next w hcontra => exact absurd rfl (hcontra es0)

/-- Claim C10, witness: the postcondition holds of the configuration stored
for the minimal document `target: {address: localhost}`. -/
theorem C10_witness : validatedTargetPost minimalOut :=
  C10_verify_config_postcondition minimalCfg minimalOut rfl
